import Mathlib

/-!
Shallow embedding of the cleaneatscostings repository (Streamlit meal-costing
app).  Python floats are modelled as rationals (ℚ): every arithmetic step the
claims exercise is an exact decimal operation, so ℚ is faithful up to float
representation error.  Python's `round(x, n)` is modelled by `pyRound`; ties
(banker's rounding in Python) play no role in any statement below because both
sides of every equation use the same `pyRound`.
-/

/-- Model of Python's `round(x, n)`: round `x` to `n` decimal places.  (Python
uses round-half-to-even on floats; no theorem below depends on the tie rule.) -/
def pyRound (x : ℚ) (n : ℕ) : ℚ := ((round (x * 10 ^ n) : ℤ) : ℚ) / 10 ^ n

/-- Model of Python's `str.upper()` (the source only applies it to ASCII unit
tags).  Defined by a structural map over the characters so it reduces in the
kernel, unlike `String.toUpper`. -/
def String.pyUpper (s : String) : String := ⟨s.data.map Char.toUpper⟩

/-- Model of Python's `str.lower()`, companion to `String.pyUpper`. -/
def String.pyLower (s : String) : String := ⟨s.data.map Char.toLower⟩

namespace BusinessCosts

/-- Embedding of `display_to_base(qty, display_unit, base_unit_type)` from
`business_costs.py` lines 16-32.  The source binds
`base_unit_type = (base_unit_type or "").upper()` and
`unit = (display_unit or "").lower()`; the locals are inlined here
(`None` folds to `""`, which takes the same fallback branch). -/
def display_to_base (qty : ℚ) (displayUnit baseUnitType : String) : ℚ :=
  if baseUnitType.pyUpper = "KG" then
    if displayUnit.pyLower ∈ (["g", "gram", "grams"] : List String) then qty / 1000
    else qty
  else if baseUnitType.pyUpper = "L" then
    if displayUnit.pyLower ∈ (["ml"] : List String) then qty / 1000
    else qty
  else if baseUnitType.pyUpper = "UNIT" then qty
  else qty

/-- Embedding of `base_to_display(qty_base, base_unit_type)` from
`business_costs.py` lines 35-49. -/
def base_to_display (qtyBase : ℚ) (baseUnitType : String) : ℚ × String :=
  if baseUnitType.pyUpper = "KG" then
    if qtyBase < 1 then (qtyBase * 1000, "g") else (qtyBase, "kg")
  else if baseUnitType.pyUpper = "L" then
    if qtyBase < 1 then (qtyBase * 1000, "ml") else (qtyBase, "L")
  else if baseUnitType.pyUpper = "UNIT" then (qtyBase, "unit")
  else (qtyBase, "")

end BusinessCosts

namespace MealBuilder

/-- Embedding of `display_to_base(qty, display_unit, base_unit_type)` from
`meal_builder.py` lines 14-21 (no explicit UNIT branch; everything that is not
KG or L falls through unchanged). -/
def display_to_base (qty : ℚ) (displayUnit baseUnitType : String) : ℚ :=
  if baseUnitType.pyUpper = "KG" then
    if displayUnit.pyLower ∈ (["g", "gram", "grams"] : List String) then qty / 1000
    else qty
  else if baseUnitType.pyUpper = "L" then
    if displayUnit.pyLower = "ml" then qty / 1000
    else qty
  else qty

/-- Embedding of `base_to_display(qty, base_unit_type)` from
`meal_builder.py` lines 23-29. -/
def base_to_display (qty : ℚ) (baseUnitType : String) : ℚ × String :=
  if baseUnitType.pyUpper = "KG" then
    if qty < 1 then (qty * 1000, "g") else (qty, "kg")
  else if baseUnitType.pyUpper = "L" then
    if qty < 1 then (qty * 1000, "ml") else (qty, "L")
  else (qty, "unit")

end MealBuilder

section ConversionLemmas

theorem pyUpper_KG : "KG".pyUpper = "KG" := by decide

theorem pyUpper_L : "L".pyUpper = "L" := by decide

theorem pyUpper_UNIT : "UNIT".pyUpper = "UNIT" := by decide

theorem bc_dtb_kg (q : ℚ) (u : String) :
    BusinessCosts.display_to_base q u "KG" =
      if u.pyLower ∈ (["g", "gram", "grams"] : List String) then q / 1000 else q := by
  rw [BusinessCosts.display_to_base, if_pos pyUpper_KG]

theorem bc_dtb_l (q : ℚ) (u : String) :
    BusinessCosts.display_to_base q u "L" =
      if u.pyLower = "ml" then q / 1000 else q := by
  rw [BusinessCosts.display_to_base, if_neg (by decide : ¬ "L".pyUpper = "KG"),
    if_pos pyUpper_L]
  simp

theorem bc_dtb_unit (q : ℚ) (u : String) :
    BusinessCosts.display_to_base q u "UNIT" = q := by
  rw [BusinessCosts.display_to_base, if_neg (by decide : ¬ "UNIT".pyUpper = "KG"),
    if_neg (by decide : ¬ "UNIT".pyUpper = "L"), if_pos pyUpper_UNIT]

theorem mb_dtb_kg (q : ℚ) (u : String) :
    MealBuilder.display_to_base q u "KG" =
      if u.pyLower ∈ (["g", "gram", "grams"] : List String) then q / 1000 else q := by
  rw [MealBuilder.display_to_base, if_pos pyUpper_KG]

theorem mb_dtb_l (q : ℚ) (u : String) :
    MealBuilder.display_to_base q u "L" =
      if u.pyLower = "ml" then q / 1000 else q := by
  rw [MealBuilder.display_to_base, if_neg (by decide : ¬ "L".pyUpper = "KG"),
    if_pos pyUpper_L]

theorem mb_dtb_unit (q : ℚ) (u : String) :
    MealBuilder.display_to_base q u "UNIT" = q := by
  rw [MealBuilder.display_to_base, if_neg (by decide : ¬ "UNIT".pyUpper = "KG"),
    if_neg (by decide : ¬ "UNIT".pyUpper = "L")]

end ConversionLemmas

/-- Claim C3: for base unit type MASS_KG (`"KG"` in the code), `display_to_base`
divides the quantity by 1000 exactly when the unit string is (case-insensitively)
"g", "gram" or "grams" and passes it through unchanged otherwise; for VOLUME_L
(`"L"`) it divides by 1000 exactly for "ml" (case-insensitively) and passes
through otherwise; for COUNT (`"UNIT"`) the quantity is unchanged regardless of
the unit string.  Both copies of the function (`business_costs.py` and
`meal_builder.py`) satisfy this, and both are total: no unit string is rejected. -/
theorem C3_display_to_base_cases (q : ℚ) (u : String) :
    (BusinessCosts.display_to_base q u "KG" =
      if u.pyLower ∈ (["g", "gram", "grams"] : List String) then q / 1000 else q) ∧
    (BusinessCosts.display_to_base q u "L" =
      if u.pyLower = "ml" then q / 1000 else q) ∧
    (BusinessCosts.display_to_base q u "UNIT" = q) ∧
    (MealBuilder.display_to_base q u "KG" =
      if u.pyLower ∈ (["g", "gram", "grams"] : List String) then q / 1000 else q) ∧
    (MealBuilder.display_to_base q u "L" =
      if u.pyLower = "ml" then q / 1000 else q) ∧
    (MealBuilder.display_to_base q u "UNIT" = q) :=
  ⟨bc_dtb_kg q u, bc_dtb_l q u, bc_dtb_unit q u, mb_dtb_kg q u, mb_dtb_l q u,
    mb_dtb_unit q u⟩

section RoundTripLemmas

theorem bc_btd_kg (q : ℚ) :
    BusinessCosts.base_to_display q "KG" =
      if q < 1 then (q * 1000, "g") else (q, "kg") := by
  rw [BusinessCosts.base_to_display, if_pos pyUpper_KG]

theorem bc_btd_l (q : ℚ) :
    BusinessCosts.base_to_display q "L" =
      if q < 1 then (q * 1000, "ml") else (q, "L") := by
  rw [BusinessCosts.base_to_display, if_neg (by decide : ¬ "L".pyUpper = "KG"),
    if_pos pyUpper_L]

theorem bc_btd_unit (q : ℚ) :
    BusinessCosts.base_to_display q "UNIT" = (q, "unit") := by
  rw [BusinessCosts.base_to_display, if_neg (by decide : ¬ "UNIT".pyUpper = "KG"),
    if_neg (by decide : ¬ "UNIT".pyUpper = "L"), if_pos pyUpper_UNIT]

theorem mb_btd_kg (q : ℚ) :
    MealBuilder.base_to_display q "KG" =
      if q < 1 then (q * 1000, "g") else (q, "kg") := by
  rw [MealBuilder.base_to_display, if_pos pyUpper_KG]

theorem mb_btd_l (q : ℚ) :
    MealBuilder.base_to_display q "L" =
      if q < 1 then (q * 1000, "ml") else (q, "L") := by
  rw [MealBuilder.base_to_display, if_neg (by decide : ¬ "L".pyUpper = "KG"),
    if_pos pyUpper_L]

theorem mb_btd_unit (q : ℚ) :
    MealBuilder.base_to_display q "UNIT" = (q, "unit") := by
  rw [MealBuilder.base_to_display, if_neg (by decide : ¬ "UNIT".pyUpper = "KG"),
    if_neg (by decide : ¬ "UNIT".pyUpper = "L")]

theorem mul_thousand_div_thousand (q : ℚ) : q * 1000 / 1000 = q := by
  field_simp

end RoundTripLemmas

/-- Claim C4: feeding the display quantity and display unit label produced by
`base_to_display` back through `display_to_base` (same base unit type) returns
the original quantity, for every positive quantity and each of the three base
unit types, in both the `business_costs.py` and `meal_builder.py` copies.  In
the exact rational model the round trip is exact, hence in particular within
floating rounding tolerance. -/
theorem C4_round_trip (q : ℚ) (hq : 0 < q) :
    (BusinessCosts.display_to_base (BusinessCosts.base_to_display q "KG").1
      (BusinessCosts.base_to_display q "KG").2 "KG" = q) ∧
    (BusinessCosts.display_to_base (BusinessCosts.base_to_display q "L").1
      (BusinessCosts.base_to_display q "L").2 "L" = q) ∧
    (BusinessCosts.display_to_base (BusinessCosts.base_to_display q "UNIT").1
      (BusinessCosts.base_to_display q "UNIT").2 "UNIT" = q) ∧
    (MealBuilder.display_to_base (MealBuilder.base_to_display q "KG").1
      (MealBuilder.base_to_display q "KG").2 "KG" = q) ∧
    (MealBuilder.display_to_base (MealBuilder.base_to_display q "L").1
      (MealBuilder.base_to_display q "L").2 "L" = q) ∧
    (MealBuilder.display_to_base (MealBuilder.base_to_display q "UNIT").1
      (MealBuilder.base_to_display q "UNIT").2 "UNIT" = q) := by
  refine ⟨?_, ?_, ?_, ?_, ?_, ?_⟩
  · rw [bc_btd_kg]
    by_cases h : q < 1
    · rw [if_pos h]
      show BusinessCosts.display_to_base (q * 1000) "g" "KG" = q
      rw [bc_dtb_kg,
        if_pos (by decide : "g".pyLower ∈ (["g", "gram", "grams"] : List String)),
        mul_thousand_div_thousand]
    · rw [if_neg h]
      show BusinessCosts.display_to_base q "kg" "KG" = q
      rw [bc_dtb_kg,
        if_neg (by decide : ¬ "kg".pyLower ∈ (["g", "gram", "grams"] : List String))]
  · rw [bc_btd_l]
    by_cases h : q < 1
    · rw [if_pos h]
      show BusinessCosts.display_to_base (q * 1000) "ml" "L" = q
      rw [bc_dtb_l, if_pos (by decide : "ml".pyLower = "ml"),
        mul_thousand_div_thousand]
    · rw [if_neg h]
      show BusinessCosts.display_to_base q "L" "L" = q
      rw [bc_dtb_l, if_neg (by decide : ¬ "L".pyLower = "ml")]
  · rw [bc_btd_unit]
    show BusinessCosts.display_to_base q "unit" "UNIT" = q
    rw [bc_dtb_unit]
  · rw [mb_btd_kg]
    by_cases h : q < 1
    · rw [if_pos h]
      show MealBuilder.display_to_base (q * 1000) "g" "KG" = q
      rw [mb_dtb_kg,
        if_pos (by decide : "g".pyLower ∈ (["g", "gram", "grams"] : List String)),
        mul_thousand_div_thousand]
    · rw [if_neg h]
      show MealBuilder.display_to_base q "kg" "KG" = q
      rw [mb_dtb_kg,
        if_neg (by decide : ¬ "kg".pyLower ∈ (["g", "gram", "grams"] : List String))]
  · rw [mb_btd_l]
    by_cases h : q < 1
    · rw [if_pos h]
      show MealBuilder.display_to_base (q * 1000) "ml" "L" = q
      rw [mb_dtb_l, if_pos (by decide : "ml".pyLower = "ml"),
        mul_thousand_div_thousand]
    · rw [if_neg h]
      show MealBuilder.display_to_base q "L" "L" = q
      rw [mb_dtb_l, if_neg (by decide : ¬ "L".pyLower = "ml")]
  · rw [mb_btd_unit]
    show MealBuilder.display_to_base q "unit" "UNIT" = q
    rw [mb_dtb_unit]

/-- Witness for C4: the round trip evaluated at the concrete quantity 1/2 kg
(displayed as 500 g) returns 1/2. -/
theorem C4_round_trip_witness :
    (0 : ℚ) < 1 / 2 ∧
      BusinessCosts.display_to_base (BusinessCosts.base_to_display (1 / 2) "KG").1
        (BusinessCosts.base_to_display (1 / 2) "KG").2 "KG" = 1 / 2 :=
  ⟨by norm_num, (C4_round_trip (1 / 2) (by norm_num)).1⟩

/-- Ingredient record as stored in `data/ingredients.csv`: name, base unit type
(`"KG"`, `"L"` or `"UNIT"` after the loaders uppercase it), purchase size and
cost in base units, and the derived cost per base unit. -/
structure Ingredient where
  name : String
  unitType : String
  purchaseSize : ℚ
  cost : ℚ
  costPerUnit : ℚ
  deriving DecidableEq, Repr

namespace BusinessCosts

/-- Embedding of `cpu_calc(r)` from `business_costs.py` lines 101-107 (the same
formula appears in `meal_builder.py` lines 58-61):
`round(c / ps, 6) if ps != 0 else 0`.  The `except` arm of the source catches
non-numeric cells, which are outside this numeric model. -/
def cpu_calc (purchaseSize cost : ℚ) : ℚ :=
  if purchaseSize ≠ 0 then pyRound (cost / purchaseSize) 6 else 0

end BusinessCosts

namespace AppMain

/-- Embedding of `live_cost_per_unit(row)` from `app.py` lines 125-129:
`round(Cost / Purchase Size, 4)` with `ZeroDivisionError` caught and turned
into `None` (modelled as `none`; the `ValueError`/`TypeError` arms concern
non-numeric cells, outside this numeric model). -/
def live_cost_per_unit (cost purchaseSize : ℚ) : Option ℚ :=
  if purchaseSize = 0 then none else some (pyRound (cost / purchaseSize) 4)

end AppMain

namespace IngredientsTab

/-- Embedding of the cost-per-unit column computed by `load_ingredients` in
`ingredients.py` line 36: `Cost / Purchase Size.replace(0, 1)` — a purchase
size of 0 is replaced by 1 before dividing, so the result is the raw cost,
not 0. -/
def gh_cost_per_unit (cost purchaseSize : ℚ) : ℚ :=
  cost / (if purchaseSize = 0 then 1 else purchaseSize)

/-- Embedding of the cost-per-unit computed by the new-ingredient form in
`ingredients.py` line 117: `cost / size if size else 0.0`. -/
def form_cost_per_unit (cost purchaseSize : ℚ) : ℚ :=
  if purchaseSize ≠ 0 then cost / purchaseSize else 0

end IngredientsTab

/-- Counterexample to claim C2: the claim requires the derived cost-per-base-unit
to be 0 whenever the purchase size is 0, but the loader in `ingredients.py`
(line 36, one of the claim's cited sources) replaces a zero purchase size by 1,
so an ingredient with purchase size 0 and cost 5 gets cost-per-unit 5, not 0. -/
theorem C2_cost_per_unit_counterexample :
    IngredientsTab.gh_cost_per_unit 5 0 = 5 ∧ (5 : ℚ) ≠ 0 := by
  constructor
  · rw [IngredientsTab.gh_cost_per_unit, if_pos rfl]
    norm_num
  · norm_num

/-- Claim C2 (amended): the `cpu_calc` variant of the derived cost-per-base-unit
(`business_costs.py` lines 101-107, `meal_builder.py` lines 58-61) returns
`round(c / s, 6)` for nonzero purchase size — hence exactly `c / s` whenever
`c / s` has at most 6 decimal places — and 0 when the purchase size is 0; the
live recompute in `app.py` (lines 125-129) returns `round(c / s, 4)` for
nonzero size and no value (`None`) rather than 0 at size 0; the GitHub loader
in `ingredients.py` (line 36) instead substitutes purchase size 1 when it is 0
and so returns the raw cost there.  None of the variants raises an exception:
all are total functions. -/
theorem C2_cost_per_unit_amended (s c : ℚ) (k : ℤ) :
    BusinessCosts.cpu_calc 0 c = 0 ∧
    (s ≠ 0 → BusinessCosts.cpu_calc s c = pyRound (c / s) 6) ∧
    (s ≠ 0 → c / s = (k : ℚ) / 10 ^ 6 → BusinessCosts.cpu_calc s c = c / s) ∧
    AppMain.live_cost_per_unit c 0 = none ∧
    (s ≠ 0 → AppMain.live_cost_per_unit c s = some (pyRound (c / s) 4)) ∧
    IngredientsTab.gh_cost_per_unit c 0 = c ∧
    IngredientsTab.form_cost_per_unit c 0 = 0 := by
  refine ⟨?_, ?_, ?_, ?_, ?_, ?_, ?_⟩
  · rw [BusinessCosts.cpu_calc, if_neg]
    simp
  · intro hs
    rw [BusinessCosts.cpu_calc, if_pos hs]
  · intro hs hk
    rw [BusinessCosts.cpu_calc, if_pos hs, hk, pyRound]
    have h6 : ((10 : ℚ) ^ 6) ≠ 0 := by norm_num
    rw [div_mul_cancel₀ _ h6]
    rw [round_intCast]
  · rw [AppMain.live_cost_per_unit, if_pos rfl]
  · intro hs
    rw [AppMain.live_cost_per_unit, if_neg hs]
  · rw [IngredientsTab.gh_cost_per_unit, if_pos rfl]
    norm_num
  · rw [IngredientsTab.form_cost_per_unit, if_neg]
    simp

/-- Witness for the amended C2 at a concrete input: purchase size 2, cost 5
gives cost-per-unit exactly 5/2 in `cpu_calc`; the `app.py` live recompute at
purchase size 0 yields no value; `cpu_calc` at purchase size 0 yields 0. -/
theorem C2_cost_per_unit_amended_witness :
    BusinessCosts.cpu_calc 2 5 = 5 / 2 ∧
      AppMain.live_cost_per_unit 5 0 = none ∧ BusinessCosts.cpu_calc 0 5 = 0 := by
  obtain ⟨h0, _, hk, hnone, _, _, _⟩ := C2_cost_per_unit_amended 2 5 2500000
  exact ⟨hk (by norm_num) (by norm_num), hnone, h0⟩

namespace AppMain

/-- Business overhead cost line as edited in the Business Costs tab of `app.py`
(columns `Name`, `Type`, `Amount`, `Unit`). -/
structure CostLine where
  name : String
  ctype : String
  amount : ℚ
  unit : String
  deriving DecidableEq, Repr

/-- Sum of the `Amount` column, `business_df["Amount"].sum()`. -/
def sumAmounts (ls : List CostLine) : ℚ := (ls.map fun l => l.amount).sum

/-- Embedding of `business_cost = round(business_df["Amount"].sum(), 2)` from
`app.py` line 190: the per-meal business (overhead) cost is the rounded sum of
the raw amounts of all overhead lines; the `Unit` column is never consulted. -/
def business_cost (ls : List CostLine) : ℚ := pyRound (sumAmounts ls) 2

/-- Row appended to the stored total summary by the Meal Builder tab of
`app.py` (lines 207-213). -/
structure AppMealEntry where
  meal : String
  ingredients : ℚ
  otherCosts : ℚ
  totalCost : ℚ
  sellPrice : ℚ
  deriving DecidableEq, Repr

/-- Embedding of the `new_entry` construction in `app.py` lines 189-213:
`ingredient_cost` and `sell_price` are passed through, `Other Costs` is
`business_cost` and `Total Cost` is `round(ingredient_cost + business_cost, 2)`. -/
def appNewEntry (name : String) (ingredientCost : ℚ) (ls : List CostLine)
    (sellPrice : ℚ) : AppMealEntry :=
  { meal := name
    ingredients := ingredientCost
    otherCosts := business_cost ls
    totalCost := pyRound (ingredientCost + business_cost ls) 2
    sellPrice := sellPrice }

end AppMain

/-- Counterexample to claim C1: an overhead line with allocation unit
`PER_CARTON` and amount 240 contributes its raw amount 240 — not 240/24 = 10 —
to the meal's Other Costs in `app.py` (lines 189-213): there is no division by
the carton size anywhere in the overhead roll-up. -/
theorem C1_per_carton_counterexample :
    (AppMain.appNewEntry "Meal" 0 [⟨"Cartons", "Packaging", 240, "PER_CARTON"⟩]
        0).otherCosts = 240 ∧
      (240 : ℚ) ≠ 240 / 24 := by
  constructor
  · show AppMain.business_cost [⟨"Cartons", "Packaging", 240, "PER_CARTON"⟩] = 240
    rw [AppMain.business_cost, AppMain.sumAmounts]
    norm_num [pyRound]
  · norm_num

/-- Claim C1 (amended): every overhead line contributes exactly its raw amount
to the per-meal overhead total, regardless of its allocation-unit tag: the
business cost applied to a meal in `app.py` is the 2-decimal rounding of the
plain sum of the `Amount` column, the sum grows by exactly the raw amount of
each added line, and rewriting a line's `Unit` field never changes the result
(so a `PER_CARTON` line with amount `a` contributes `a`, not `a / 24`). -/
theorem C1_overhead_raw_amount_amended (ls : List AppMain.CostLine)
    (l : AppMain.CostLine) (u : String) :
    AppMain.sumAmounts (l :: ls) = l.amount + AppMain.sumAmounts ls ∧
    AppMain.business_cost ls = pyRound (AppMain.sumAmounts ls) 2 ∧
    AppMain.business_cost ({ l with unit := u } :: ls) =
      AppMain.business_cost (l :: ls) := by
  refine ⟨?_, rfl, ?_⟩
  · rw [AppMain.sumAmounts, AppMain.sumAmounts]
    simp
  · rw [AppMain.business_cost, AppMain.business_cost, AppMain.sumAmounts,
      AppMain.sumAmounts]
    simp

namespace MealBuilder

/-- One line of the in-progress meal draft (`st.session_state["meal_ingredients"]`
in `meal_builder.py`): ingredient name, base-unit quantity, the snapshotted cost
per unit, the line total, the display unit the user typed, and the base unit
type copied from the ingredient. -/
structure DraftLine where
  ingredient : String
  quantity : ℚ
  costPerUnit : ℚ
  totalCost : ℚ
  inputUnit : String
  unitType : String
  deriving DecidableEq, Repr

/-- One row of `data/meals.csv` as loaded by `load_meals` in `meal_builder.py`:
a draft line plus the meal name and sell price. -/
structure MealRow where
  meal : String
  ingredient : String
  quantity : ℚ
  costPerUnit : ℚ
  totalCost : ℚ
  inputUnit : String
  unitType : String
  sellPrice : ℚ
  deriving DecidableEq, Repr

/-- Embedding of the add-ingredient branch of the new-meal form in
`meal_builder.py` lines 252-260, inlining `add_temp` (lines 101-122): empty
meal name, quantity ≤ 0, and empty ingredient selection are each rejected with
a warning and leave the draft untouched; otherwise the ingredient row is looked
up, the quantity converted to base units, the current cost-per-unit snapshotted,
and the new line appended.  (A selected ingredient missing from the table would
raise `IndexError` in `add_temp` before any mutation; modelled as a message
with the draft unchanged.) -/
def mb_add_clicked (ings : List Ingredient) (mealName sel : String) (qty : ℚ)
    (unit : String) (cur : List DraftLine) : List DraftLine × Option String :=
  if mealName.trim = "" then (cur, some "Enter a meal name first.")
  else if qty ≤ 0 then (cur, some "Quantity must be > 0.")
  else if sel = "" then (cur, some "Select an ingredient.")
  else
    match ings.find? fun i => i.name == sel with
    | none => (cur, some "ingredient row missing")
    | some row =>
        let baseQ := display_to_base qty unit row.unitType
        (cur ++ [{ ingredient := sel, quantity := baseQ,
                   costPerUnit := row.costPerUnit,
                   totalCost := pyRound (baseQ * row.costPerUnit) 6,
                   inputUnit := unit, unitType := row.unitType }], none)

/-- Embedding of the save-meal branch of the new-meal form in `meal_builder.py`
lines 262-268, inlining `save_new_meal` (lines 124-141): an empty draft or an
empty meal name is rejected with a warning and nothing is written; otherwise
the draft lines are stamped with the meal name and sell price and appended to
the stored meals. -/
def mb_save_clicked (meals : List MealRow) (draft : List DraftLine)
    (mealName : String) (sellPrice : ℚ) : List MealRow × Option String :=
  if draft.isEmpty then (meals, some "Add at least one ingredient before saving.")
  else if mealName.trim = "" then (meals, some "Enter a meal name.")
  else
    (meals ++ draft.map fun d =>
      { meal := mealName.trim, ingredient := d.ingredient, quantity := d.quantity,
        costPerUnit := d.costPerUnit, totalCost := d.totalCost,
        inputUnit := d.inputUnit, unitType := d.unitType, sellPrice := sellPrice },
      none)

/-- Embedding of the per-row body of `save_edit_meal` in `meal_builder.py`
lines 172-181: the widget values (absent ones fall back to the stored display
quantity and stored input unit) are converted to base units and the line total
is recomputed as `round(base_q * r["Cost Per Unit"], 6)` — from the row's
stored, snapshotted cost-per-unit.  `save_edit_meal` never consults the
ingredient table (it calls `load_meals` but not `load_ingredients`), which is
why this function takes no ingredient argument. -/
def editLine (qtyW : Option ℚ) (unitW : Option String) (r : MealRow) : MealRow :=
  let qtyDisplay := qtyW.getD (base_to_display r.quantity r.unitType).1
  let unitInput := unitW.getD r.inputUnit
  let baseQ := display_to_base qtyDisplay unitInput r.unitType
  { r with quantity := baseQ, inputUnit := unitInput,
           totalCost := pyRound (baseQ * r.costPerUnit) 6 }

/-- Sum of the line totals of a draft: the meal's ingredient cost (0 for an
empty draft). -/
def draftIngredientCost (draft : List DraftLine) : ℚ :=
  (draft.map fun d => d.totalCost).sum

end MealBuilder

/-- The app's persistent data: `data/ingredients.csv` and `data/meals.csv`.
They are separate files; ingredient edits rewrite only the former. -/
structure AppState where
  ingredients : List Ingredient
  meals : List MealBuilder.MealRow
  deriving Repr

/-- Changing an ingredient's purchase size and cost (the ingredient-management
flow of `ingredients.py`): the matching row of `data/ingredients.csv` is
replaced, its cost-per-unit recomputed by the form rule
(`cost / size if size else 0.0`, line 117), and `data/meals.csv` is not
touched. -/
def updateIngredient (s : AppState) (n : String) (ps c : ℚ) : AppState :=
  { s with
    ingredients := s.ingredients.map fun i =>
      if i.name = n then
        { i with purchaseSize := ps, cost := c,
                 costPerUnit := IngredientsTab.form_cost_per_unit c ps }
      else i }

namespace Dashboard

/-- One row of `stored_total_summary.csv` as used by `dashboard.py`: per-meal
Other Costs and Sell Price (either may be absent for a meal, modelled as
`none`, matching a missing row or NaN cell after the left merge). -/
structure StoredRow where
  meal : String
  otherCosts : Option ℚ
  sellPrice : Option ℚ
  deriving DecidableEq, Repr

/-- The left-merge of `dashboard.py` line 73: find the stored-summary row for a
meal, if any. -/
def storedLookup (stored : List StoredRow) (m : String) : Option StoredRow :=
  stored.find? fun r => r.meal == m

/-- `merged["Other Costs"].fillna(0.0)` (`dashboard.py` line 77): the stored
per-meal Other Costs, defaulting to 0 when absent. -/
def storedOther (stored : List StoredRow) (m : String) : ℚ :=
  ((storedLookup stored m).bind fun r => r.otherCosts).getD 0

/-- The stored per-meal Sell Price before the fillna of `dashboard.py` line 78. -/
def storedSell (stored : List StoredRow) (m : String) : Option ℚ :=
  (storedLookup stored m).bind fun r => r.sellPrice

/-- One row of the dashboard's computed costing snapshot. -/
structure DashRow where
  meal : String
  ingredients : ℚ
  otherCosts : ℚ
  sellPrice : ℚ
  totalCost : ℚ
  profitMargin : ℚ
  marginPct : ℚ
  deriving DecidableEq, Repr

/-- Embedding of the Margin % lambda of `dashboard.py` lines 85-88 and 113-116:
`(profit / sell * 100) if sell else 0.0` (Python float truthiness: a sell price
of 0 takes the 0 branch; the guard makes the function total, no
division-by-zero exception can occur). -/
def dash_margin (sell profit : ℚ) : ℚ :=
  if sell = 0 then 0 else profit / sell * 100

/-- Embedding of the merged-row computation of `dashboard.py` lines 72-88 for
one meal: Other Costs from the stored summary (0 when absent), Sell Price from
the stored summary with missing values filled by ingredients + other costs,
then Total Cost, Profit Margin and Margin %. -/
def computeDashRow (stored : List StoredRow) (m : String) (ing : ℚ) : DashRow :=
  let other := storedOther stored m
  let sell := (storedSell stored m).getD (ing + other)
  { meal := m, ingredients := ing, otherCosts := other, sellPrice := sell,
    totalCost := ing + other, profitMargin := sell - (ing + other),
    marginPct := dash_margin sell (sell - (ing + other)) }

/-- Embedding of the recomputation after the editable table
(`dashboard.py` lines 111-116): the user-edited Other Costs and Sell Price are
taken as given and Total Cost, Profit Margin and Margin % derived from them. -/
def editedRow (m : String) (ing other sell : ℚ) : DashRow :=
  { meal := m, ingredients := ing, otherCosts := other, sellPrice := sell,
    totalCost := ing + other, profitMargin := sell - (ing + other),
    marginPct := dash_margin sell (sell - (ing + other)) }

/-- Embedding of the per-meal ingredient-cost aggregation of `dashboard.py`
lines 64-70: `meals_df.groupby("Meal")["Total Cost"].sum()` for one meal. -/
def mealIngredientCost (meals : List MealBuilder.MealRow) (m : String) : ℚ :=
  ((meals.filter fun r => r.meal == m).map fun r => r.totalCost).sum

end Dashboard

namespace AppMain

/-- Embedding of the Margin % column of the legacy dashboard tab in `app.py`
lines 90-92: `(Profit Margin / Sell Price) * 100` with no zero guard.  In
pandas a zero sell price produces ±inf (or NaN), i.e. no rational value, still
without raising; modelled as `none` when the sell price is 0. -/
def app_margin (sell total : ℚ) : Option ℚ :=
  if sell = 0 then none else some ((sell - total) / sell * 100)

end AppMain

section DashboardLemmas

theorem computeDashRow_marginPct (stored : List Dashboard.StoredRow) (m : String)
    (ing : ℚ) :
    (Dashboard.computeDashRow stored m ing).marginPct =
      Dashboard.dash_margin (Dashboard.computeDashRow stored m ing).sellPrice
        (Dashboard.computeDashRow stored m ing).profitMargin := rfl

theorem editedRow_marginPct (m : String) (ing other sell : ℚ) :
    (Dashboard.editedRow m ing other sell).marginPct =
      Dashboard.dash_margin sell (sell - (ing + other)) := rfl

end DashboardLemmas

namespace BusinessCosts

/-- One line of the in-progress meal draft in `business_costs.py`
(`st.session_state.meal_ingredients`, columns Ingredient / Quantity /
Cost per Unit / Total Cost / Input Unit). -/
structure BCDraft where
  ingredient : String
  quantity : ℚ
  costPerUnit : ℚ
  totalCost : ℚ
  inputUnit : String
  deriving DecidableEq, Repr

/-- One row of `data/meals.csv` as written by `business_costs.py` (a draft line
plus the meal name). -/
structure BCMealRow where
  meal : String
  ingredient : String
  quantity : ℚ
  costPerUnit : ℚ
  totalCost : ℚ
  inputUnit : String
  deriving DecidableEq, Repr

/-- Embedding of the submitted branch of the new-meal form in
`business_costs.py` lines 248-283: an empty (stripped) meal name is warned
about first; then a quantity ≤ 0 is rejected with a warning; then the
ingredient is looked up case-insensitively; only when all checks pass is the
converted, cost-snapshotted line appended to the draft. -/
def bc_add_submitted (ings : List Ingredient) (mealName sel : String) (qty : ℚ)
    (unit : String) (cur : List BCDraft) : List BCDraft × Option String :=
  if mealName.trim = "" then
    (cur, some "Please provide a meal name before adding ingredients.")
  else if qty ≤ 0 then (cur, some "Quantity must be greater than zero.")
  else
    match ings.find? fun i => i.name.pyLower == sel.trim.pyLower with
    | none => (cur, some "Ingredient not found.")
    | some row =>
        let qtyBase := display_to_base qty unit row.unitType
        (cur ++ [{ ingredient := sel, quantity := qtyBase,
                   costPerUnit := row.costPerUnit,
                   totalCost := pyRound (qtyBase * row.costPerUnit) 6,
                   inputUnit := unit }], none)

/-- Embedding of the save-changes branch of the meal editor in
`business_costs.py` lines 529-548: when the reconstructed row list is empty the
save is aborted with a warning and the stored meals are untouched; otherwise
the original meal's rows are dropped and the updated rows inserted under the
final name. -/
def bc_save_changes (meals : List BCMealRow) (newRows : List BCDraft)
    (mealName finalName : String) : List BCMealRow × Option String :=
  if newRows.isEmpty then
    (meals, some "Meal must have at least one ingredient. Aborting save.")
  else
    ((meals.filter fun r => r.meal != mealName) ++ newRows.map fun d =>
      { meal := finalName, ingredient := d.ingredient, quantity := d.quantity,
        costPerUnit := d.costPerUnit, totalCost := d.totalCost,
        inputUnit := d.inputUnit },
      none)

end BusinessCosts

/-- Claim C8: a quantity ≤ 0 supplied to line-item addition is rejected before
any mutation: in both new-meal forms (`meal_builder.py` lines 252-260 and
`business_costs.py` lines 248-283) the draft line-item list after the call is
exactly what it was before, whatever the rest of the state is. -/
theorem C8_invalid_quantity_no_mutation (ings : List Ingredient)
    (mealName sel : String) (qty : ℚ) (unit : String)
    (curMB : List MealBuilder.DraftLine) (curBC : List BusinessCosts.BCDraft)
    (hq : qty ≤ 0) :
    (MealBuilder.mb_add_clicked ings mealName sel qty unit curMB).1 = curMB ∧
    (BusinessCosts.bc_add_submitted ings mealName sel qty unit curBC).1 = curBC := by
  constructor
  · rw [MealBuilder.mb_add_clicked]
    by_cases h : mealName.trim = ""
    · rw [if_pos h]
    · rw [if_neg h, if_pos hq]
  · rw [BusinessCosts.bc_add_submitted]
    by_cases h : mealName.trim = ""
    · rw [if_pos h]
    · rw [if_neg h, if_pos hq]

/-- Witness for C8: with quantity -1 both add operations leave an empty draft
empty. -/
theorem C8_invalid_quantity_no_mutation_witness :
    (MealBuilder.mb_add_clicked [] "M" "Beef" (-1) "kg" []).1 = [] ∧
      (BusinessCosts.bc_add_submitted [] "M" "Beef" (-1) "kg" []).1 = [] :=
  C8_invalid_quantity_no_mutation [] "M" "Beef" (-1) "kg" [] [] (by norm_num)

/-- Counterexample to claim C9: saving a meal with zero line items does not
succeed — `meal_builder.py` lines 262-264 reject it with a warning and leave
the stored meals unchanged (here: still empty), so an empty meal is an error,
not a degenerate accepted state. -/
theorem C9_empty_meal_save_counterexample :
    MealBuilder.mb_save_clicked [] [] "Pasta" 10 =
      ([], some "Add at least one ingredient before saving.") := rfl

/-- Claim C9 (amended): saving a meal with zero line items is rejected — the
new-meal save of `meal_builder.py` (lines 262-268) warns and leaves the stored
meals untouched, and the edit-save of `business_costs.py` (lines 540-543)
aborts likewise — while the ingredient cost of an empty line-item list is
indeed 0. -/
theorem C9_empty_meal_rejected_amended (meals : List MealBuilder.MealRow)
    (name : String) (sell : ℚ) (bms : List BusinessCosts.BCMealRow)
    (mn fn : String) :
    MealBuilder.mb_save_clicked meals [] name sell =
      (meals, some "Add at least one ingredient before saving.") ∧
    BusinessCosts.bc_save_changes bms [] mn fn =
      (bms, some "Meal must have at least one ingredient. Aborting save.") ∧
    MealBuilder.draftIngredientCost [] = 0 :=
  ⟨rfl, rfl, rfl⟩

/-- Claim C6: updating an ingredient's purchase size and cost rewrites only
`data/ingredients.csv` — the stored meal rows, and hence every saved meal's
snapshotted cost-per-unit, line totals and aggregated ingredient cost, are
unchanged — and a later edit of a meal (`save_edit_meal`) recomputes each line
total from the row's stored cost-per-unit snapshot, not from the ingredient's
current value (the recompute does not read the ingredient table at all). -/
theorem C6_snapshot_isolated_from_price_change (s : AppState) (n : String)
    (ps c : ℚ) (m : String) (qtyW : Option ℚ) (unitW : Option String)
    (r : MealBuilder.MealRow) :
    (updateIngredient s n ps c).meals = s.meals ∧
    Dashboard.mealIngredientCost (updateIngredient s n ps c).meals m =
      Dashboard.mealIngredientCost s.meals m ∧
    (MealBuilder.editLine qtyW unitW r).costPerUnit = r.costPerUnit ∧
    (MealBuilder.editLine qtyW unitW r).totalCost =
      pyRound
        (MealBuilder.display_to_base
            (qtyW.getD (MealBuilder.base_to_display r.quantity r.unitType).1)
            (unitW.getD r.inputUnit) r.unitType *
          r.costPerUnit) 6 :=
  ⟨rfl, rfl, rfl, rfl⟩

/-- Counterexample to claim C5: the legacy dashboard tab of `app.py` (lines
90-92) computes Margin % with no zero-sell-price guard; at sell price 0 and
total cost 5 pandas produces an infinite value, not 0 — the margin is not the
claimed 0 for every dashboard computation. -/
theorem C5_margin_zero_sell_counterexample :
    AppMain.app_margin 0 5 = none ∧ AppMain.app_margin 0 5 ≠ some 0 := by
  constructor
  · rw [AppMain.app_margin, if_pos rfl]
  · rw [AppMain.app_margin, if_pos rfl]
    simp

/-- Claim C5 (amended): in `dashboard.py` (both the merged snapshot of lines
72-88 and the post-edit recompute of lines 111-116) the margin percent equals
profit / sell price × 100 when the sell price is nonzero and 0 when the sell
price is 0, with no division-by-zero exception possible; the legacy `app.py`
tab 1 computes the same formula unguarded, yielding no finite value (±inf/NaN
in pandas, modelled as `none`) instead of 0 at sell price 0, though it, too,
raises no exception. -/
theorem C5_margin_guard_amended (stored : List Dashboard.StoredRow) (m : String)
    (ing other sell c : ℚ) :
    ((Dashboard.computeDashRow stored m ing).sellPrice = 0 →
      (Dashboard.computeDashRow stored m ing).marginPct = 0) ∧
    ((Dashboard.computeDashRow stored m ing).sellPrice ≠ 0 →
      (Dashboard.computeDashRow stored m ing).marginPct =
        (Dashboard.computeDashRow stored m ing).profitMargin /
          (Dashboard.computeDashRow stored m ing).sellPrice * 100) ∧
    (sell = 0 → (Dashboard.editedRow m ing other sell).marginPct = 0) ∧
    (sell ≠ 0 →
      (Dashboard.editedRow m ing other sell).marginPct =
        (sell - (ing + other)) / sell * 100) ∧
    AppMain.app_margin 0 c = none ∧
    (sell ≠ 0 → AppMain.app_margin sell c = some ((sell - c) / sell * 100)) := by
  refine ⟨?_, ?_, ?_, ?_, ?_, ?_⟩
  · intro h
    rw [computeDashRow_marginPct, Dashboard.dash_margin, if_pos h]
  · intro h
    rw [computeDashRow_marginPct, Dashboard.dash_margin, if_neg h]
  · intro h
    rw [editedRow_marginPct, Dashboard.dash_margin, if_pos h]
  · intro h
    rw [editedRow_marginPct, Dashboard.dash_margin, if_neg h]
  · rw [AppMain.app_margin, if_pos rfl]
  · intro h
    rw [AppMain.app_margin, if_neg h]

/-- Witness for the amended C5 at concrete inputs: a dashboard row with sell
price 0 gets margin 0, one with sell price 10 (ingredients 1, other costs 2)
gets margin 70, and the `app.py` margin at sell price 0 has no value. -/
theorem C5_margin_guard_amended_witness :
    (Dashboard.editedRow "A" 1 2 0).marginPct = 0 ∧
      (Dashboard.editedRow "A" 1 2 10).marginPct = (10 - (1 + 2)) / 10 * 100 ∧
      AppMain.app_margin 0 3 = none :=
  ⟨(C5_margin_guard_amended [] "A" 1 2 0 3).2.2.1 rfl,
    (C5_margin_guard_amended [] "A" 1 2 10 3).2.2.2.1 (by norm_num),
    (C5_margin_guard_amended [] "A" 1 2 0 3).2.2.2.2.1⟩

/-- Counterexample to claim C7: in one dashboard computation the Other Costs
component is per-meal, not a single shared pool: with a stored summary holding
Other Costs 5 for meal A and 7 for meal B, the two meals of the same computed
snapshot carry different overhead components. -/
theorem C7_overhead_not_uniform_counterexample :
    (Dashboard.computeDashRow
        [⟨"A", some 5, some 20⟩, ⟨"B", some 7, some 20⟩] "A" 1).otherCosts = 5 ∧
    (Dashboard.computeDashRow
        [⟨"A", some 5, some 20⟩, ⟨"B", some 7, some 20⟩] "B" 1).otherCosts = 7 ∧
    (5 : ℚ) ≠ 7 := by
  refine ⟨rfl, ?_, by norm_num⟩
  rfl

/-- Claim C7 (amended): the dashboard takes each meal's overhead (Other Costs)
component from that meal's row of the stored summary, defaulting to 0 when the
meal has no stored value; two meals of the same snapshot therefore carry equal
overhead components exactly when their stored Other Costs agree, not
unconditionally. -/
theorem C7_overhead_per_meal_amended (stored : List Dashboard.StoredRow)
    (m1 m2 : String) (i1 i2 : ℚ)
    (h : Dashboard.storedOther stored m1 = Dashboard.storedOther stored m2) :
    (Dashboard.computeDashRow stored m1 i1).otherCosts =
      (Dashboard.computeDashRow stored m2 i2).otherCosts ∧
    (Dashboard.computeDashRow stored m1 i1).otherCosts =
      Dashboard.storedOther stored m1 :=
  ⟨h, rfl⟩

/-- Witness for the amended C7: two meals both absent from the stored summary
get the same (zero) overhead component. -/
theorem C7_overhead_per_meal_amended_witness :
    (Dashboard.computeDashRow [] "A" 1).otherCosts =
      (Dashboard.computeDashRow [] "B" 2).otherCosts :=
  (C7_overhead_per_meal_amended [] "A" "B" 1 2 rfl).1

/-- Claim C10: a meal with no stored sell price is assigned sell price =
ingredient cost + other costs by the fillna of `dashboard.py` line 78, so its
profit margin is exactly 0 and its margin percent 0 — a number, not a missing
value or an error. -/
theorem C10_missing_sell_price_zero_margin (stored : List Dashboard.StoredRow)
    (m : String) (ing : ℚ) (h : Dashboard.storedSell stored m = none) :
    (Dashboard.computeDashRow stored m ing).sellPrice =
      ing + (Dashboard.computeDashRow stored m ing).otherCosts ∧
    (Dashboard.computeDashRow stored m ing).profitMargin = 0 ∧
    (Dashboard.computeDashRow stored m ing).marginPct = 0 := by
  have hp : (Dashboard.computeDashRow stored m ing).profitMargin = 0 := by
    show (Dashboard.storedSell stored m).getD (ing + Dashboard.storedOther stored m) -
        (ing + Dashboard.storedOther stored m) = 0
    rw [h, Option.getD_none, sub_self]
  refine ⟨?_, hp, ?_⟩
  · show (Dashboard.storedSell stored m).getD (ing + Dashboard.storedOther stored m) =
      ing + Dashboard.storedOther stored m
    rw [h, Option.getD_none]
  · rw [computeDashRow_marginPct, Dashboard.dash_margin]
    by_cases hz : (Dashboard.computeDashRow stored m ing).sellPrice = 0
    · rw [if_pos hz]
    · rw [if_neg hz, hp, zero_div, zero_mul]

/-- Witness for C10: a meal absent from the stored summary (so with no stored
sell price) with ingredient cost 3 gets profit margin 0 and margin percent 0. -/
theorem C10_missing_sell_price_zero_margin_witness :
    (Dashboard.computeDashRow [] "A" 3).profitMargin = 0 ∧
      (Dashboard.computeDashRow [] "A" 3).marginPct = 0 :=
  ⟨(C10_missing_sell_price_zero_margin [] "A" 3 rfl).2.1,
    (C10_missing_sell_price_zero_margin [] "A" 3 rfl).2.2⟩
